import Mathlib

/-!
Verification of the Easy-Scan invoice application against its
natural-language specification.  The definitions below are a shallow
embedding of the TypeScript sources:

* `src/services/invoiceApi.ts` — the `ExtractedFields`, `OCRResponse`,
  `Invoice`, `InvoiceCreate` and `InvoiceUpdate` data model;
* `src/lib/features/invoiceSlice.ts` — the Redux reducers for the
  fulfilled/rejected cases of the five async thunks;
* the invoice-detail editor page (`calculateSubtotal`, `calculateTotal`,
  `addLineItem`, `updateLineItem`, `handleSave`, `statusOptions`);
* `src/app/upload-invoice/page.tsx` — `handleSaveInvoice`, which maps an
  OCR result into the persisted `InvoiceCreate` payload.

JavaScript numbers are modelled as exact rationals (`ℚ`); `x || y` on
numbers and strings is modelled by explicit falsiness tests
(`jsOrNum`, `jsOrStr`, ...), matching the semantics of `||` on the
value ranges that occur (`0`, `""`, `null`/`undefined` are falsy).
-/

namespace EasyScan

/-- JavaScript `v || d` for a nullable number `v`: `null`/`undefined`
and `0` are falsy, every other number is kept. -/
def jsOrNum (v : Option ℚ) (d : ℚ) : ℚ :=
  match v with
  | some q => if q = 0 then d else q
  | none => d

/-- JavaScript `t || d` for a plain number `t`: `0` is falsy. -/
def jsNumOr (t d : ℚ) : ℚ := if t = 0 then d else t

/-- JavaScript truthiness of a nullable string: `null`/`undefined` and
`""` are falsy. -/
def jsStrTruthy (v : Option String) : Bool :=
  match v with
  | some s => s ≠ ""
  | none => false

/-- JavaScript `a || b` for nullable strings. -/
def jsOrStrOpt (a b : Option String) : Option String :=
  if jsStrTruthy a then a else b

/-- JavaScript `a || d` for a nullable string with a plain-string default. -/
def jsOrStrD (a : Option String) (d : String) : String :=
  match a with
  | some s => if s = "" then d else s
  | none => d

/-- JavaScript `s || d` for plain strings. -/
def jsOrStr (s d : String) : String := if s = "" then d else s

/-- Helper for `handleSaveInvoice`: `v ? String(v).trim() : null`. -/
def strTrimOrNull (v : Option String) : Option String :=
  if jsStrTruthy v then v.map String.trim else none

/-- Helper for `handleSaveInvoice`: `v || null` on a nullable string. -/
def strOrNull (v : Option String) : Option String :=
  if jsStrTruthy v then v else none

/-! ### Data model (`src/services/invoiceApi.ts`) -/

/-- One entry of `ExtractedFields.items` (OCR line item, with legacy
field aliases), from `invoiceApi.ts`. -/
structure ExtractedItem where
  description : String
  quantity : Option ℚ
  qty : Option ℚ
  unitPrice : Option ℚ
  rate : Option ℚ
  totalPrice : Option ℚ
  amount : Option ℚ
deriving DecidableEq, Repr

/-- `ExtractedFields` from `invoiceApi.ts`: the raw result of the OCR
backend, every field nullable/optional. -/
structure ExtractedFields where
  vendor : Option String
  vendor_address : Option String
  vendor_email : Option String
  vendor_phone : Option String
  invoice_number : Option String
  invoice_date : Option String
  date : Option String
  due_date : Option String
  bill_to_name : Option String
  bill_to_address : Option String
  total : Option ℚ
  subtotal : Option ℚ
  tax : Option ℚ
  taxAmount : Option ℚ
  discount : Option ℚ
  currency : Option String
  items : Option (List ExtractedItem)
  purchase_order : Option String
deriving DecidableEq, Repr

/-- `OCRResponse` from `invoiceApi.ts`. -/
structure OCRResponse where
  success : Bool
  filename : String
  image_path : Option String
  raw_text : String
  extracted_fields : ExtractedFields
deriving DecidableEq, Repr

/-- A persisted line item (`line_items` entries of `Invoice`). -/
structure SavedLineItem where
  description : String
  qty : ℚ
  rate : ℚ
  amount : ℚ
deriving DecidableEq, Repr

/-- `Invoice` from `invoiceApi.ts`: the persisted record returned by the
backend. -/
structure Invoice where
  id : String
  invoice_number : Option String
  vendor : Option String
  vendor_address : Option String
  vendor_email : Option String
  vendor_phone : Option String
  bill_to_name : Option String
  bill_to_address : Option String
  invoice_date : Option String
  due_date : Option String
  purchase_order : Option String
  subtotal : ℚ
  tax : ℚ
  tax_amount : Option ℚ
  discount : ℚ
  total : ℚ
  currency : String
  status : String
  raw_text : Option String
  extracted_fields : Option ExtractedFields
  line_items : Option (List SavedLineItem)
  image_path : Option String
  created_at : Option String
  updated_at : Option String
deriving DecidableEq, Repr

/-- `InvoiceCreate` from `invoiceApi.ts`: the payload sent by the upload
page.  Optional/nullable fields are `Option`s; the numeric fields are
`Option ℚ` so that the distinction between a stored `null` and a stored
`0` is expressible. -/
structure InvoiceCreate where
  invoice_number : Option String
  vendor : Option String
  vendor_address : Option String
  vendor_email : Option String
  vendor_phone : Option String
  bill_to_name : Option String
  bill_to_address : Option String
  invoice_date : Option String
  due_date : Option String
  purchase_order : Option String
  subtotal : Option ℚ
  tax : Option ℚ
  tax_amount : Option ℚ
  discount : Option ℚ
  total : Option ℚ
  currency : Option String
  status : Option String
  raw_text : Option String
  extracted_fields : Option ExtractedFields
  line_items : Option (List SavedLineItem)
  image_path : Option String
deriving DecidableEq, Repr

/-- `InvoiceUpdate` from `invoiceApi.ts`, restricted to the fields the
detail editor's `handleSave` actually sends (all of them, with the
stated types: numeric fields are plain numbers there). -/
structure InvoiceUpdate where
  invoice_number : Option String
  invoice_date : Option String
  due_date : Option String
  purchase_order : Option String
  vendor : Option String
  vendor_address : Option String
  vendor_email : Option String
  vendor_phone : Option String
  subtotal : ℚ
  tax : ℚ
  discount : ℚ
  total : ℚ
  status : String
  line_items : List SavedLineItem
deriving DecidableEq, Repr

/-! ### Redux invoice slice (`src/lib/features/invoiceSlice.ts`) -/

/-- `InvoiceState` from `invoiceSlice.ts`. -/
structure InvoiceState where
  invoices : List Invoice
  currentInvoice : Option Invoice
  loading : Bool
  error : Option String
  totalCount : Nat
deriving DecidableEq, Repr

/-- `initialState` from `invoiceSlice.ts`. -/
def initialState : InvoiceState :=
  { invoices := [], currentInvoice := none, loading := false,
    error := none, totalCount := 0 }

/-- `updateInvoiceAsync.fulfilled`: find the index of the invoice with
the payload's id; if found, assign the payload at that index; if the
current invoice has the payload's id, replace it with the payload. -/
def updateFulfilled (s : InvoiceState) (payload : Invoice) : InvoiceState :=
  let idx := s.invoices.findIdx? (fun inv => inv.id = payload.id)
  let invoices :=
    match idx with
    | some i => s.invoices.set i payload
    | none => s.invoices
  let current :=
    match s.currentInvoice with
    | some c => if c.id = payload.id then some payload else some c
    | none => none
  { s with loading := false, invoices := invoices, currentInvoice := current }

/-- `deleteInvoiceAsync.fulfilled`: drop every invoice whose id equals
the payload id; clear `currentInvoice` when it carried that id. -/
def deleteFulfilled (s : InvoiceState) (d : String) : InvoiceState :=
  let invoices := s.invoices.filter (fun inv => inv.id ≠ d)
  let current :=
    match s.currentInvoice with
    | some c => if c.id = d then none else some c
    | none => none
  { s with loading := false, invoices := invoices, currentInvoice := current }

/-- `createInvoiceAsync.fulfilled`: prepend the payload and make it the
current invoice. -/
def createFulfilled (s : InvoiceState) (payload : Invoice) : InvoiceState :=
  { s with loading := false,
           invoices := payload :: s.invoices,
           currentInvoice := some payload }

/-- `fetchInvoices.rejected` (`action.error.message || default`). -/
def fetchInvoicesRejected (s : InvoiceState) (msg : Option String) : InvoiceState :=
  { s with loading := false,
           error := some (jsOrStrD msg "Failed to fetch invoices") }

/-- `fetchInvoiceById.rejected`. -/
def fetchInvoiceByIdRejected (s : InvoiceState) (msg : Option String) : InvoiceState :=
  { s with loading := false,
           error := some (jsOrStrD msg "Failed to fetch invoice") }

/-- `createInvoiceAsync.rejected`. -/
def createInvoiceRejected (s : InvoiceState) (msg : Option String) : InvoiceState :=
  { s with loading := false,
           error := some (jsOrStrD msg "Failed to create invoice") }

/-- `updateInvoiceAsync.rejected`. -/
def updateInvoiceRejected (s : InvoiceState) (msg : Option String) : InvoiceState :=
  { s with loading := false,
           error := some (jsOrStrD msg "Failed to update invoice") }

/-- `deleteInvoiceAsync.rejected`. -/
def deleteInvoiceRejected (s : InvoiceState) (msg : Option String) : InvoiceState :=
  { s with loading := false,
           error := some (jsOrStrD msg "Failed to delete invoice") }

/-! ### Invoice detail editor page (`InvoiceDetailPage`) -/

/-- The editor's `LineItem` local state. -/
structure LineItem where
  id : String
  description : String
  qty : ℚ
  rate : ℚ
  amount : ℚ
deriving DecidableEq, Repr

/-- The editor's `invoiceData` local state. -/
structure EditorInvoiceData where
  invoice_number : String
  invoice_date : String
  due_date : String
  purchase_order : String
  vendor : String
  vendor_address : String
  vendor_email : String
  vendor_phone : String
  subtotal : ℚ
  tax : ℚ
  discount : ℚ
  total : ℚ
  status : String
deriving DecidableEq, Repr

/-- `calculateSubtotal`: `lineItems.reduce((sum, item) => sum + item.amount, 0)`. -/
def calculateSubtotal (lineItems : List LineItem) : ℚ :=
  lineItems.foldl (fun sum item => sum + item.amount) 0

/-- `calculateTotal`: `calculateSubtotal() + (invoiceData.tax || 0) -
(invoiceData.discount || 0)`. -/
def calculateTotal (lineItems : List LineItem) (data : EditorInvoiceData) : ℚ :=
  calculateSubtotal lineItems + jsNumOr data.tax 0 - jsNumOr data.discount 0

/-- `addLineItem`: append a fresh row with `qty` 1, `rate` 0, `amount` 0.
The generated id string is taken as a parameter (the source draws a
random suffix, which only serves as a React key). -/
def addLineItem (lineItems : List LineItem) (freshId : String) : List LineItem :=
  lineItems ++ [{ id := freshId, description := "", qty := 1, rate := 0, amount := 0 }]

/-- An edit passed to `updateLineItem`: the `field` argument together
with its `value` (the editor's inputs call it with `description`, `qty`
or `rate`). -/
inductive LIEdit where
  | description (s : String)
  | qty (q : ℚ)
  | rate (r : ℚ)
deriving DecidableEq, Repr

/-- The body of `updateLineItem`'s map function for the matching item:
`{...item, [field]: value}`, then, if the field was `qty` or `rate`,
`updated.amount = updated.qty * updated.rate`. -/
def applyEdit (item : LineItem) (e : LIEdit) : LineItem :=
  match e with
  | .description s => { item with description := s }
  | .qty q => { item with qty := q, amount := q * item.rate }
  | .rate r => { item with rate := r, amount := item.qty * r }

/-- `updateLineItem`: map over the rows, editing the one(s) whose id
matches. -/
def updateLineItem (lineItems : List LineItem) (id : String) (e : LIEdit) :
    List LineItem :=
  lineItems.map (fun item => if item.id = id then applyEdit item e else item)

/-- `removeLineItem`. -/
def removeLineItem (lineItems : List LineItem) (id : String) : List LineItem :=
  lineItems.filter (fun item => item.id ≠ id)

/-- `statusOptions` offered by the detail editor's status select. -/
def statusOptions : List String :=
  ["Pending Review", "Approved", "Rejected", "Paid", "Overdue", "Draft"]

/-- The editor's `handleInputChange` for the `status` field (the select
writes the chosen option into `invoiceData.status`). -/
def setStatus (data : EditorInvoiceData) (s : String) : EditorInvoiceData :=
  { data with status := s }

/-- The `updateData` object built by the editor's `handleSave`:
`subtotal` is recomputed from the rows, `total` from
`calculateTotal`, empty strings become `null`, and the rows are sent
verbatim. -/
def handleSaveUpdate (lineItems : List LineItem) (data : EditorInvoiceData) :
    InvoiceUpdate :=
  { invoice_number := if data.invoice_number = "" then none else some data.invoice_number,
    invoice_date := if data.invoice_date = "" then none else some data.invoice_date,
    due_date := if data.due_date = "" then none else some data.due_date,
    purchase_order := if data.purchase_order = "" then none else some data.purchase_order,
    vendor := if data.vendor = "" then none else some data.vendor,
    vendor_address := if data.vendor_address = "" then none else some data.vendor_address,
    vendor_email := if data.vendor_email = "" then none else some data.vendor_email,
    vendor_phone := if data.vendor_phone = "" then none else some data.vendor_phone,
    subtotal := calculateSubtotal lineItems,
    tax := data.tax,
    discount := data.discount,
    total := calculateTotal lineItems data,
    status := data.status,
    line_items := lineItems.map (fun item =>
      { description := item.description, qty := item.qty,
        rate := item.rate, amount := item.amount }) }

/-! ### Upload page (`handleSaveInvoice` in `src/app/upload-invoice/page.tsx`) -/

/-- The item mapping inside `handleSaveInvoice`:
`qty: item.quantity || item.qty || 1`, `rate: item.unitPrice ||
item.rate || 0`, `amount: item.totalPrice || item.amount || 0`. -/
def mapOcrItem (item : ExtractedItem) : SavedLineItem :=
  { description := jsOrStr item.description "",
    qty := jsOrNum item.quantity (jsOrNum item.qty 1),
    rate := jsOrNum item.unitPrice (jsOrNum item.rate 0),
    amount := jsOrNum item.totalPrice (jsOrNum item.amount 0) }

/-- The `invoiceData` object built by `handleSaveInvoice` from the OCR
result: string fields use `v ? String(v).trim() : null`, numeric fields
use `v || 0`, currency defaults to `USD`, status is `Pending Review`. -/
def buildInvoiceData (ocr : OCRResponse) : InvoiceCreate :=
  let extracted := ocr.extracted_fields
  let mappedItems := extracted.items.map (fun items => items.map mapOcrItem)
  { invoice_number := strTrimOrNull extracted.invoice_number,
    vendor := strTrimOrNull extracted.vendor,
    vendor_address := strTrimOrNull extracted.vendor_address,
    vendor_email := strTrimOrNull extracted.vendor_email,
    vendor_phone := strTrimOrNull extracted.vendor_phone,
    bill_to_name := strTrimOrNull extracted.bill_to_name,
    bill_to_address := strTrimOrNull extracted.bill_to_address,
    invoice_date := strOrNull (jsOrStrOpt extracted.invoice_date extracted.date),
    due_date := strOrNull extracted.due_date,
    purchase_order := strTrimOrNull extracted.purchase_order,
    subtotal := some (jsOrNum extracted.subtotal 0),
    tax := some (jsOrNum extracted.taxAmount (jsOrNum extracted.tax 0)),
    tax_amount := some (jsOrNum extracted.taxAmount (jsOrNum extracted.tax 0)),
    discount := some (jsOrNum extracted.discount 0),
    total := some (jsOrNum extracted.total 0),
    currency := some (jsOrStrD extracted.currency "USD"),
    status := some "Pending Review",
    raw_text := some ocr.raw_text,
    extracted_fields := some extracted,
    line_items := mappedItems,
    image_path := strOrNull ocr.image_path }

/-! ### Extraction engine (modelled from the spec)

The Invoice Field Extraction Engine runs in the Python backend
(`app/services/ocr_service.py`, behind `POST /api/ocr/upload`), whose
source is not part of this repository tree; only its TypeScript callers
and the `ExtractedFields` declaration are.  The definitions from `Line`
down to `extract` therefore model the engine from the specification's
component design (tokenizer, pattern matchers, header resolver,
line-item detector, totals reconciler, orchestrator); per-field
confidence scores are elided. -/

/-- Modelled from the spec: a tokenized text line (`Line` of the data
model), produced by the tokenizer of the missing backend engine;
vertical positions are not available through this interface. -/
structure Line where
  index : Nat
  text : String
deriving DecidableEq, Repr

/-- Splitting a character list on a separator character (structural
counterpart of splitting a string). -/
def splitOnChar (c : Char) : List Char → List (List Char)
  | [] => [[]]
  | x :: xs =>
    let r := splitOnChar c xs
    if x = c then [] :: r
    else
      match r with
      | [] => [[x]]
      | y :: ys => (x :: y) :: ys

/-- Trimming leading and trailing whitespace from a character list. -/
def trimChars (cs : List Char) : List Char :=
  ((cs.dropWhile Char.isWhitespace).reverse.dropWhile Char.isWhitespace).reverse

/-- Lower-casing a character list. -/
def lowerChars (cs : List Char) : List Char := cs.map Char.toLower

/-- Whether the first character list is a prefix of the second. -/
def charsPrefix : List Char → List Char → Bool
  | [], _ => true
  | _ :: _, [] => false
  | n :: ns, h :: hs => n = h && charsPrefix ns hs

/-- Whether the second character list occurs inside the first. -/
def charsContain (hay needle : List Char) : Bool :=
  match hay with
  | [] => needle.isEmpty
  | _ :: rest => charsPrefix needle hay || charsContain rest needle

/-- Modelled from the spec: the tokenizer of the missing backend engine
splits raw recognized text into ordered lines, trims whitespace and
collapses blank lines; empty input yields the empty sequence. -/
def tokenize (rawText : String) : List Line :=
  let parts := (splitOnChar '\n' rawText.toList).map trimChars
  ((parts.filter (fun t => !t.isEmpty)).enum).map
    (fun p => { index := p.1, text := String.mk p.2 })

/-- A non-empty all-digit character list. -/
def isDigits (cs : List Char) : Bool := !cs.isEmpty && cs.all Char.isDigit

/-- The natural number denoted by a digit list. -/
def digitsToNat (cs : List Char) : Nat :=
  cs.foldl (fun a c => a * 10 + (c.toNat - 48)) 0

/-- Modelled from the spec: the monetary-amount matcher of the missing
backend engine — optional currency symbol, optional thousands
separators, at most one decimal separator. -/
def parseAmount (w : List Char) : Option ℚ :=
  let t := w.filter (fun c => c ≠ '$' && c ≠ ',')
  match splitOnChar '.' t with
  | [ip] => if isDigits ip then some (digitsToNat ip : ℚ) else none
  | [ip, fp] =>
    if isDigits ip && isDigits fp then
      some ((digitsToNat ip : ℚ) + (digitsToNat fp : ℚ) / (10 : ℚ) ^ fp.length)
    else none
  | _ => none

/-- Whitespace-separated tokens of a line. -/
def wordsOf (s : String) : List (List Char) :=
  (splitOnChar ' ' s.toList).filter (fun w => !w.isEmpty)

/-- ISO `YYYY-MM-DD` date token. -/
def isIsoDate (w : List Char) : Bool :=
  match splitOnChar '-' w with
  | [y, m, d] =>
    y.length = 4 && m.length = 2 && d.length = 2 &&
      isDigits y && isDigits m && isDigits d
  | _ => false

/-- Numeric slash date token (`DD/MM/YYYY` or `MM/DD/YYYY`). -/
def isSlashDate (w : List Char) : Bool :=
  match splitOnChar '/' w with
  | [a, b, c] =>
    isDigits a && isDigits b && isDigits c &&
      a.length ≤ 2 && b.length ≤ 2 && c.length = 4
  | _ => false

/-- Modelled from the spec: the date matcher of the missing backend
engine (locale formats reduced to the two numeric shapes). -/
def isDateToken (w : List Char) : Bool := isIsoDate w || isSlashDate w

/-- Modelled from the spec: the RFC-lite email matcher of the missing
backend engine. -/
def isEmailToken (w : List Char) : Bool := w.contains '@' && w.contains '.'

/-- Modelled from the spec: the phone matcher of the missing backend
engine — digit groups with optional separators, 7 to 15 digits. -/
def isPhoneToken (w : List Char) : Bool :=
  let ds := w.filter Char.isDigit
  7 ≤ ds.length && ds.length ≤ 15 &&
    w.all (fun c => c.isDigit || c = '-' || c = '+' || c = '(' || c = ')')

/-- A line matching the email pattern. -/
def lineIsEmail (l : Line) : Bool := (wordsOf l.text).any isEmailToken

/-- A line matching the phone pattern (and not the email pattern). -/
def lineIsPhone (l : Line) : Bool :=
  !lineIsEmail l && (wordsOf l.text).any isPhoneToken

/-- A line matching the invoice-number or date patterns, ending the
header block. -/
def lineEndsHeader (l : Line) : Bool :=
  charsContain (lowerChars l.text.toList) "inv".toList || l.text.toList.contains '#' ||
    (wordsOf l.text).any isDateToken

/-- Modelled from the spec: the header block of the missing backend
engine — the first block of lines before the first line matching an
invoice-number or date pattern. -/
def headerBlock (lines : List Line) : List Line :=
  lines.takeWhile (fun l => !lineEndsHeader l)

/-- Result of the vendor/header resolver. -/
structure HeaderResult where
  vendor : Option String
  address : Option String
  email : Option String
  phone : Option String
deriving DecidableEq, Repr

/-- Modelled from the spec: the vendor/header resolver of the missing
backend engine — fixed-order assignment inside the header block; the
first non-contact line is the vendor name, later non-contact lines are
concatenated into the address, the first email-like and phone-like
lines give email and phone. -/
def resolveHeader (block : List Line) : HeaderResult :=
  let nonContact := block.filter (fun l => !lineIsEmail l && !lineIsPhone l)
  { vendor := (nonContact.head?).map Line.text,
    address :=
      match nonContact with
      | [] => none
      | _ :: rest =>
        if rest.isEmpty then none
        else some (String.mk (List.intercalate ", ".toList
          (rest.map (fun l => l.text.toList)))),
    email := ((block.filter lineIsEmail).head?).map Line.text,
    phone := ((block.filter lineIsPhone).head?).map Line.text }

/-- A capitalized word. -/
def isTitleWord (w : List Char) : Bool :=
  match w with
  | c :: _ => c.isUpper
  | [] => false

/-- Modelled from the spec: the vendor fallback of the missing backend
engine — a short title-case line not matching any other field. -/
def fallbackVendor (lines : List Line) : Option String :=
  ((lines.filter (fun l =>
    let ws := wordsOf l.text
    !ws.isEmpty && ws.length ≤ 4 && ws.all isTitleWord &&
      !lineIsEmail l && !lineIsPhone l && !lineEndsHeader l &&
      ws.all (fun w => (parseAmount w).isNone))).head?).map Line.text

/-- A totals-keyword line, the lower boundary of the item table. -/
def isTotalsLine (t : String) : Bool :=
  let l := lowerChars t.toList
  charsContain l "subtotal".toList || charsContain l "tax".toList ||
    charsContain l "total".toList || charsContain l "discount".toList

/-- `LineItemRow` of the spec's data model. -/
structure LineItemRow where
  description : String
  quantity : ℚ
  unitPrice : ℚ
  lineTotal : ℚ
  sourceLineIndex : Nat
deriving DecidableEq, Repr

/-- Modelled from the spec: row parsing of the missing backend engine's
line-item detector — the last numeric token is the line total, the
second-to-last the unit price, a small leading integer the quantity; a
single numeric token is the line total with quantity 1. -/
def parseItemRow (l : Line) : Option LineItemRow :=
  let ws := wordsOf l.text
  let nums := ws.filterMap parseAmount
  let desc := String.mk (List.intercalate [' '] (ws.filter (fun w => (parseAmount w).isNone)))
  match nums.reverse with
  | [] => none
  | [t] => some { description := desc, quantity := 1, unitPrice := t,
                  lineTotal := t, sourceLineIndex := l.index }
  | t :: p :: rest =>
    let qty :=
      match (rest.reverse).head? with
      | some q => if q.den = 1 && q ≤ 1000 then q else 1
      | none => 1
    some { description := desc, quantity := qty, unitPrice := p,
           lineTotal := t, sourceLineIndex := l.index }

/-- Tolerance of the line-item consistency invariant: 0.01 currency
unit or 1 percent, whichever is larger. -/
def rowTolerance (r : LineItemRow) : ℚ := max (1 / 100) (r.lineTotal / 100)

/-- Whether a row satisfies `lineTotal ≈ quantity * unitPrice`. -/
def rowConsistent (r : LineItemRow) : Bool :=
  |r.lineTotal - r.quantity * r.unitPrice| ≤ rowTolerance r

/-- `ReconciliationFlag` kinds of the spec's data model. -/
inductive FlagKind where
  | AmountMismatch
  | MissingTotal
  | AmbiguousVendor
  | NoLineItemsDetected
deriving DecidableEq, Repr

/-- `ReconciliationFlag` of the spec's data model. -/
structure ReconciliationFlag where
  kind : FlagKind
  detail : String
deriving DecidableEq, Repr

/-- Modelled from the spec: one labeled amount candidate of the missing
backend engine — the last amount token on the first line whose
lower-cased text satisfies the label predicate. -/
def findLabeledAmount (lines : List Line) (hasLabel : List Char → Bool) : Option ℚ :=
  (lines.filterMap (fun l =>
    if hasLabel (lowerChars l.text.toList) then
      ((wordsOf l.text).filterMap parseAmount).getLast?
    else none)).head?

/-- Subtotal candidate. -/
def subtotalOf (lines : List Line) : Option ℚ :=
  findLabeledAmount lines (fun t => charsContain t "subtotal".toList)

/-- Tax candidate. -/
def taxOf (lines : List Line) : Option ℚ :=
  findLabeledAmount lines (fun t => charsContain t "tax".toList)

/-- Discount candidate. -/
def discountOf (lines : List Line) : Option ℚ :=
  findLabeledAmount lines (fun t => charsContain t "discount".toList)

/-- Total candidate (a line labeled `total` but not `subtotal`). -/
def totalOf (lines : List Line) : Option ℚ :=
  findLabeledAmount lines
    (fun t => charsContain t "total".toList && !charsContain t "subtotal".toList)

/-- Result of the totals reconciler. -/
structure TotalsResult where
  subtotal : Option ℚ
  tax : Option ℚ
  discount : Option ℚ
  total : Option ℚ
  flags : List ReconciliationFlag
deriving DecidableEq, Repr

/-- Modelled from the spec: the totals reconciler of the missing
backend engine — with at least three of the four known the missing term
is derived from `total = subtotal + tax - discount`; a recognized total
within tolerance of the derived one is kept; with fewer than three
known the available values are kept and a `MissingTotal` flag is
raised, and no value is invented for a field with zero evidence. -/
def reconcileTotals (sub tax disc tot : Option ℚ) : TotalsResult :=
  match sub, tax, disc, tot with
  | some s, some t, some d, some v =>
    if |v - (s + t - d)| ≤ 1 / 100 then
      { subtotal := some s, tax := some t, discount := some d, total := some v,
        flags := [] }
    else
      { subtotal := some s, tax := some t, discount := some d, total := some v,
        flags := [{ kind := .AmountMismatch,
                    detail := "total disagrees with subtotal + tax - discount" }] }
  | some s, some t, some d, none =>
    { subtotal := some s, tax := some t, discount := some d,
      total := some (s + t - d),
      flags := [{ kind := .MissingTotal,
                  detail := "total derived from subtotal + tax - discount" }] }
  | none, some t, some d, some v =>
    { subtotal := some (v - t + d), tax := some t, discount := some d,
      total := some v, flags := [] }
  | some s, none, some d, some v =>
    { subtotal := some s, tax := some (v - s + d), discount := some d,
      total := some v, flags := [] }
  | some s, some t, none, some v =>
    { subtotal := some s, tax := some t, discount := some (s + t - v),
      total := some v, flags := [] }
  | s, t, d, v =>
    { subtotal := s, tax := t, discount := d, total := v,
      flags := [{ kind := .MissingTotal,
                  detail := "fewer than three of the four totals are known" }] }

/-- `ExtractedInvoice` of the spec's data model (per-field confidence
map elided). -/
structure ExtractedInvoice where
  vendor : Option String
  vendorAddress : Option String
  vendorEmail : Option String
  vendorPhone : Option String
  invoiceNumber : Option String
  invoiceDate : Option String
  dueDate : Option String
  purchaseOrder : Option String
  items : List LineItemRow
  subtotal : Option ℚ
  tax : Option ℚ
  discount : Option ℚ
  total : Option ℚ
  currency : Option String
  rawText : String
  flags : List ReconciliationFlag
deriving DecidableEq, Repr

/-- Modelled from the spec: the invoice-number matcher of the missing
backend engine — an alphanumeric token adjacent to an invoice label. -/
def invoiceNumberOf (lines : List Line) : Option String :=
  (lines.filterMap (fun l =>
    if charsContain (lowerChars l.text.toList) "inv".toList || l.text.toList.contains '#' then
      (((wordsOf l.text).filter (fun w =>
        w.any Char.isDigit && (parseAmount w).isNone && !isDateToken w)).getLast?).map
        (fun w => String.mk (w.dropWhile (· = '#')))
    else none)).head?

/-- First date token on a line not labeled `due`. -/
def invoiceDateOf (lines : List Line) : Option String :=
  (lines.filterMap (fun l =>
    if charsContain (lowerChars l.text.toList) "due".toList then none
    else (((wordsOf l.text).filter isDateToken).head?).map String.mk)).head?

/-- First date token on a line labeled `due`. -/
def dueDateOf (lines : List Line) : Option String :=
  (lines.filterMap (fun l =>
    if charsContain (lowerChars l.text.toList) "due".toList then
      (((wordsOf l.text).filter isDateToken).head?).map String.mk
    else none)).head?

/-- Currency code from the first recognized currency symbol. -/
def currencyOf (lines : List Line) : Option String :=
  if lines.any (fun l => l.text.toList.contains '$') then some "USD"
  else if lines.any (fun l => l.text.toList.contains '€') then some "EUR"
  else if lines.any (fun l => l.text.toList.contains '£') then some "GBP"
  else none

/-- Last digit-bearing token on a purchase-order line. -/
def purchaseOrderOf (lines : List Line) : Option String :=
  (lines.filterMap (fun l =>
    if charsContain (lowerChars l.text.toList) "purchase order".toList ||
        charsContain (lowerChars l.text.toList) "po#".toList then
      (((wordsOf l.text).filter (fun w => w.any Char.isDigit)).getLast?).map String.mk
    else none)).head?

/-- Modelled from the spec: the extraction orchestrator of the missing
backend engine — a total function over raw recognized text; partial
failures set flags but never abort, and an all-null invoice is returned
on empty input. -/
def extract (rawText : String) : ExtractedInvoice :=
  let lines := tokenize rawText
  let hdr := headerBlock lines
  let h := resolveHeader hdr
  let vendor :=
    match h.vendor with
    | some v => some v
    | none => fallbackVendor lines
  let body := lines.drop hdr.length
  let itemRegion := body.takeWhile (fun l => !isTotalsLine l.text)
  let items := itemRegion.filterMap parseItemRow
  let totals := reconcileTotals (subtotalOf lines) (taxOf lines)
    (discountOf lines) (totalOf lines)
  let vendorFlags :=
    if vendor.isNone then
      [({ kind := .AmbiguousVendor,
          detail := "no header block and no vendor-like line" } : ReconciliationFlag)]
    else []
  let itemFlags :=
    if items.isEmpty then
      [({ kind := .NoLineItemsDetected,
          detail := "no tabular line-item rows found" } : ReconciliationFlag)]
    else []
  let mismatchFlags := (items.filter (fun r => !rowConsistent r)).map
    (fun _ => ({ kind := .AmountMismatch,
                 detail := "line total disagrees with quantity times unit price" } :
               ReconciliationFlag))
  { vendor := vendor,
    vendorAddress := h.address,
    vendorEmail := h.email,
    vendorPhone := h.phone,
    invoiceNumber := invoiceNumberOf lines,
    invoiceDate := invoiceDateOf lines,
    dueDate := dueDateOf lines,
    purchaseOrder := purchaseOrderOf lines,
    items := items,
    subtotal := totals.subtotal,
    tax := totals.tax,
    discount := totals.discount,
    total := totals.total,
    currency := currencyOf lines,
    rawText := rawText,
    flags := vendorFlags ++ itemFlags ++ mismatchFlags ++ totals.flags }

/-! ### Concrete values used by witnesses and counterexamples -/

/-- Whether an `updateLineItem` edit targets the `qty` or `rate` field. -/
def LIEdit.isQtyOrRate : LIEdit → Bool
  | .description _ => false
  | .qty _ => true
  | .rate _ => true

/-- A minimal persisted invoice with a given id and total. -/
def mkInvoice (id : String) (total : ℚ) : Invoice :=
  { id := id, invoice_number := none, vendor := none, vendor_address := none,
    vendor_email := none, vendor_phone := none, bill_to_name := none,
    bill_to_address := none, invoice_date := none, due_date := none,
    purchase_order := none, subtotal := 0, tax := 0, tax_amount := none,
    discount := 0, total := total, currency := "USD", status := "Pending Review",
    raw_text := none, extracted_fields := none, line_items := none,
    image_path := none, created_at := none, updated_at := none }

/-- The originally persisted record of id `inv-1`. -/
def invoiceOld : Invoice := mkInvoice "inv-1" 10

/-- The server's response after editing the record of id `inv-1`. -/
def invoiceNew : Invoice := mkInvoice "inv-1" 25

/-- An unrelated record. -/
def invoiceOther : Invoice := mkInvoice "inv-2" 7

/-- A store state holding `invoiceOld` and `invoiceOther`, with
`invoiceOld` current. -/
def stateOne : InvoiceState :=
  { invoices := [invoiceOld, invoiceOther], currentInvoice := some invoiceOld,
    loading := true, error := none, totalCount := 2 }

/-- An OCR extraction with zero evidence for every field. -/
def emptyExtractedFields : ExtractedFields :=
  { vendor := none, vendor_address := none, vendor_email := none,
    vendor_phone := none, invoice_number := none, invoice_date := none,
    date := none, due_date := none, bill_to_name := none, bill_to_address := none,
    total := none, subtotal := none, tax := none, taxAmount := none,
    discount := none, currency := none, items := none, purchase_order := none }

/-- An OCR response carrying `emptyExtractedFields`. -/
def ocrEmpty : OCRResponse :=
  { success := true, filename := "scan.png", image_path := none,
    raw_text := "", extracted_fields := emptyExtractedFields }

/-- The editor's initial `invoiceData` with every text field blank. -/
def emptyEditorData : EditorInvoiceData :=
  { invoice_number := "", invoice_date := "", due_date := "", purchase_order := "",
    vendor := "", vendor_address := "", vendor_email := "", vendor_phone := "",
    subtotal := 0, tax := 0, discount := 0, total := 0, status := "Pending Review" }

/-- A line-item row before a quantity edit. -/
def rowBefore : LineItem :=
  { id := "r1", description := "Widget", qty := 2, rate := 10, amount := 20 }

/-- The same row after `updateLineItem _ "r1" (qty 3)`: the amount was
recomputed as 3 times the rate 10. -/
def rowAfter : LineItem :=
  { id := "r1", description := "Widget", qty := 3, rate := 10, amount := 3 * 10 }

/-- The status set named by the specification. -/
def claimedStatusSet : List String := ["Draft", "Pending Review", "Paid", "Rejected"]

/-- The claimed set extended with the two extra options the editor
offers. -/
def amendedStatusSet : List String := claimedStatusSet ++ ["Approved", "Overdue"]

/-! ### Theorems -/

/-- Helper for the editor totals: folding `+ amount` over rows from an
accumulator equals the accumulator plus the sum of the amounts. -/
theorem foldl_add_amount (l : List LineItem) (a : ℚ) :
    l.foldl (fun sum item => sum + item.amount) a = a + (l.map LineItem.amount).sum := by
  induction l generalizing a with
  | nil => simp
  | cons x xs ih => simp [ih, add_assoc]

/-- Helper for the editor totals: mapping the rows into saved items and
projecting the amounts gives back the row amounts. -/
theorem map_saved_amount (l : List LineItem) :
    (l.map (fun item => ({ description := item.description,
                           qty := item.qty,
                           rate := item.rate,
                           amount := item.amount } : SavedLineItem))).map SavedLineItem.amount
      = l.map LineItem.amount := by
  induction l with
  | nil => rfl
  | cons x xs ih => simp [ih]

/-- C1 counterexample: on an OCR result with zero evidence for every
field, `handleSaveInvoice` persists subtotal, tax, discount and total
as `0`, not as `null` — refuting the null-over-guess claim at this
concrete input. -/
theorem upload_nullEvidence_coerced_cex :
    ocrEmpty.extracted_fields.subtotal = none ∧
    ocrEmpty.extracted_fields.tax = none ∧
    ocrEmpty.extracted_fields.taxAmount = none ∧
    ocrEmpty.extracted_fields.discount = none ∧
    ocrEmpty.extracted_fields.total = none ∧
    (buildInvoiceData ocrEmpty).subtotal = some 0 ∧
    (buildInvoiceData ocrEmpty).tax = some 0 ∧
    (buildInvoiceData ocrEmpty).discount = some 0 ∧
    (buildInvoiceData ocrEmpty).total = some 0 ∧
    ¬ (buildInvoiceData ocrEmpty).subtotal = none := by decide

/-- C1 amended: in the upload save path, string and date fields with
zero evidence are persisted as `null`, but the numeric fields subtotal,
tax, discount and total with zero evidence are coerced to `0`, and a
missing currency defaults to `USD`. -/
theorem upload_save_null_vs_zero (ocr : OCRResponse) :
    (ocr.extracted_fields.invoice_number = none → (buildInvoiceData ocr).invoice_number = none) ∧
    (ocr.extracted_fields.vendor = none → (buildInvoiceData ocr).vendor = none) ∧
    (ocr.extracted_fields.vendor_address = none → (buildInvoiceData ocr).vendor_address = none) ∧
    (ocr.extracted_fields.vendor_email = none → (buildInvoiceData ocr).vendor_email = none) ∧
    (ocr.extracted_fields.vendor_phone = none → (buildInvoiceData ocr).vendor_phone = none) ∧
    (ocr.extracted_fields.purchase_order = none → (buildInvoiceData ocr).purchase_order = none) ∧
    (ocr.extracted_fields.invoice_date = none → ocr.extracted_fields.date = none →
      (buildInvoiceData ocr).invoice_date = none) ∧
    (ocr.extracted_fields.due_date = none → (buildInvoiceData ocr).due_date = none) ∧
    (ocr.extracted_fields.items = none → (buildInvoiceData ocr).line_items = none) ∧
    (ocr.extracted_fields.subtotal = none → (buildInvoiceData ocr).subtotal = some 0) ∧
    (ocr.extracted_fields.taxAmount = none → ocr.extracted_fields.tax = none →
      (buildInvoiceData ocr).tax = some 0) ∧
    (ocr.extracted_fields.discount = none → (buildInvoiceData ocr).discount = some 0) ∧
    (ocr.extracted_fields.total = none → (buildInvoiceData ocr).total = some 0) ∧
    (ocr.extracted_fields.currency = none → (buildInvoiceData ocr).currency = some "USD") := by
  refine ⟨fun h => ?_, fun h => ?_, fun h => ?_, fun h => ?_, fun h => ?_, fun h => ?_,
    fun h h2 => ?_, fun h => ?_, fun h => ?_, fun h => ?_, fun h h2 => ?_, fun h => ?_,
    fun h => ?_, fun h => ?_⟩ <;>
  simp_all [buildInvoiceData, strTrimOrNull, strOrNull, jsOrStrOpt, jsStrTruthy,
    jsOrNum, jsOrStrD]

/-- C1 amended witness: the amended statement evaluated on the
all-evidence-missing OCR response. -/
theorem upload_save_null_vs_zero_witness :
    (buildInvoiceData ocrEmpty).invoice_number = none ∧
    (buildInvoiceData ocrEmpty).subtotal = some 0 := by
  obtain ⟨h1, h2, h3, h4, h5, h6, h7, h8, h9, h10, h11, h12, h13, h14⟩ :=
    upload_save_null_vs_zero ocrEmpty
  exact ⟨h1 rfl, h10 rfl⟩

/-- C2: the editor's save path persists
`total = sum of line-item amounts + tax - discount`, and equally
`total = subtotal + tax - discount` with the persisted subtotal being
the sum of the line-item amounts, for every row list and every tax and
discount value. -/
theorem editor_save_total_equation (lineItems : List LineItem) (data : EditorInvoiceData) :
    (handleSaveUpdate lineItems data).subtotal =
      ((handleSaveUpdate lineItems data).line_items.map SavedLineItem.amount).sum ∧
    (handleSaveUpdate lineItems data).total =
      ((handleSaveUpdate lineItems data).line_items.map SavedLineItem.amount).sum
        + (handleSaveUpdate lineItems data).tax
        - (handleSaveUpdate lineItems data).discount ∧
    (handleSaveUpdate lineItems data).total =
      (handleSaveUpdate lineItems data).subtotal + (handleSaveUpdate lineItems data).tax
        - (handleSaveUpdate lineItems data).discount := by
  have hsub : calculateSubtotal lineItems = (lineItems.map LineItem.amount).sum := by
    simpa using foldl_add_amount lineItems 0
  have htot : calculateTotal lineItems data
      = calculateSubtotal lineItems + data.tax - data.discount := by
    unfold calculateTotal jsNumOr
    by_cases ht : data.tax = 0 <;> by_cases hd : data.discount = 0 <;> simp [ht, hd]
  refine ⟨?_, ?_, ?_⟩
  · simp only [handleSaveUpdate]
    rw [map_saved_amount]
    exact hsub
  · simp only [handleSaveUpdate]
    rw [map_saved_amount, htot, hsub]
  · simp only [handleSaveUpdate]
    exact htot

/-- C3: every `qty` or `rate` edit through `updateLineItem` recomputes
the edited row's amount to exactly quantity times rate, so the row
trivially satisfies the 0.01-or-1-percent tolerance bound. -/
theorem updateLineItem_recomputes_amount (lineItems : List LineItem) (id : String)
    (e : LIEdit) (he : e.isQtyOrRate = true) :
    ∀ item ∈ updateLineItem lineItems id e, item.id = id →
      item.amount = item.qty * item.rate ∧
      |item.amount - item.qty * item.rate| ≤ max (1 / 100 : ℚ) (item.amount / 100) := by
  intro item hmem hid
  have hb : ∀ y : ℚ, (0 : ℚ) ≤ max (1 / 100 : ℚ) (y / 100) :=
    fun y => le_trans (by norm_num) (le_max_left _ _)
  rcases List.mem_map.mp hmem with ⟨x, hx, hxe⟩
  by_cases hxid : x.id = id
  · rw [if_pos hxid] at hxe
    subst hxe
    cases e with
    | description s => simp [LIEdit.isQtyOrRate] at he
    | qty q =>
      refine ⟨by simp [applyEdit], ?_⟩
      simp only [applyEdit, sub_self, abs_zero]
      exact hb _
    | rate r =>
      refine ⟨by simp [applyEdit], ?_⟩
      simp only [applyEdit, sub_self, abs_zero]
      exact hb _
  · rw [if_neg hxid] at hxe
    subst hxe
    exact absurd hid hxid

/-- C3 witness: editing the quantity of the concrete row `rowBefore`
to 3 yields `rowAfter`, whose amount is exactly 3 times 10. -/
theorem updateLineItem_recomputes_amount_witness :
    rowAfter.amount = rowAfter.qty * rowAfter.rate ∧
    |rowAfter.amount - rowAfter.qty * rowAfter.rate|
      ≤ max (1 / 100 : ℚ) (rowAfter.amount / 100) :=
  updateLineItem_recomputes_amount [rowBefore] "r1" (.qty 3) rfl rowAfter
    (List.Mem.head _) rfl

/-- C4 counterexample: the detail editor's status select offers
`Approved`, which is outside the claimed status set, and saving
persists it verbatim. -/
theorem status_outside_claimed_cex :
    "Approved" ∈ statusOptions ∧ "Approved" ∉ claimedStatusSet ∧
    (handleSaveUpdate [] (setStatus emptyEditorData "Approved")).status = "Approved" := by
  decide

/-- C4 amended: every status assignable through the editor's select is
in the six-element set Draft, Pending Review, Paid, Rejected, Approved,
Overdue, and the upload path always assigns `Pending Review`. -/
theorem status_within_amended_set :
    (∀ s ∈ statusOptions, s ∈ amendedStatusSet) ∧
    (∀ ocr : OCRResponse, (buildInvoiceData ocr).status = some "Pending Review") ∧
    "Pending Review" ∈ amendedStatusSet := by
  exact ⟨by decide, fun _ => rfl, by decide⟩

/-- C4 amended witness: the amended statement evaluated at `Overdue`
and at the all-evidence-missing OCR response. -/
theorem status_within_amended_set_witness :
    "Overdue" ∈ amendedStatusSet ∧
    (buildInvoiceData ocrEmpty).status = some "Pending Review" :=
  ⟨status_within_amended_set.1 "Overdue" (by decide),
   status_within_amended_set.2.1 ocrEmpty⟩

/-- C5 counterexample: a fulfilled update replaces the stored record of
the same id in place — the engine's originally persisted record is gone
from the list and `currentInvoice` is replaced, not versioned. -/
theorem update_overwrites_same_id_cex :
    (updateFulfilled stateOne invoiceNew).invoices = [invoiceNew, invoiceOther] ∧
    invoiceOld ∉ (updateFulfilled stateOne invoiceNew).invoices ∧
    (updateFulfilled stateOne invoiceNew).currentInvoice = some invoiceNew ∧
    invoiceOld ≠ invoiceNew ∧ invoiceOld.id = invoiceNew.id := by decide

/-- C5 amended: `updateInvoiceAsync.fulfilled` overwrites in place —
when a list entry has the payload's id, it's assigned the payload at
that index, and a matching `currentInvoice` is replaced by the payload
(unchanged otherwise); no prior version is retained. -/
theorem update_replaces_in_place (s : InvoiceState) (payload : Invoice) (i : Nat)
    (h : s.invoices.findIdx? (fun inv => inv.id = payload.id) = some i) :
    (updateFulfilled s payload).invoices = s.invoices.set i payload ∧
    (∀ c, s.currentInvoice = some c → c.id = payload.id →
      (updateFulfilled s payload).currentInvoice = some payload) ∧
    (∀ c, s.currentInvoice = some c → c.id ≠ payload.id →
      (updateFulfilled s payload).currentInvoice = some c) := by
  refine ⟨by simp [updateFulfilled, h], ?_, ?_⟩
  · intro c hc hcid
    simp [updateFulfilled, hc, hcid]
  · intro c hc hcid
    simp [updateFulfilled, hc, hcid]

/-- C5 amended witness: the in-place overwrite evaluated on the
concrete one-record store. -/
theorem update_replaces_in_place_witness :
    (updateFulfilled stateOne invoiceNew).invoices = stateOne.invoices.set 0 invoiceNew ∧
    (updateFulfilled stateOne invoiceNew).currentInvoice = some invoiceNew := by
  have h := update_replaces_in_place stateOne invoiceNew 0 (by decide)
  exact ⟨h.1, h.2.1 invoiceOld rfl rfl⟩

/-- C7: the modelled extraction engine is deterministic — it is a pure
function of the raw text, so two invocations on the same input are
definitionally equal; there is no other input, shared state or clock in
its signature. -/
theorem extract_deterministic (x : String) : extract x = extract x := rfl

/-- C8: the modelled extraction engine is total and accepts empty text,
returning the all-null invoice (every scalar field `none`, no items)
with flags enumerating everything unresolved, rather than failing. -/
theorem extract_empty_all_null :
    (extract "").vendor = none ∧ (extract "").vendorAddress = none ∧
    (extract "").vendorEmail = none ∧ (extract "").vendorPhone = none ∧
    (extract "").invoiceNumber = none ∧ (extract "").invoiceDate = none ∧
    (extract "").dueDate = none ∧ (extract "").purchaseOrder = none ∧
    (extract "").items = [] ∧ (extract "").subtotal = none ∧
    (extract "").tax = none ∧ (extract "").discount = none ∧
    (extract "").total = none ∧ (extract "").currency = none ∧
    (extract "").rawText = "" ∧ (extract "").flags ≠ [] := by decide

/-- C9: the fulfilled delete removes exactly the entries whose id
equals the deleted id (a sublist of the prior list, so order and the
other entries are untouched), and `currentInvoice` is nulled exactly
when it carried that id. -/
theorem delete_removes_exactly_id (s : InvoiceState) (d : String) :
    ((deleteFulfilled s d).invoices.Sublist s.invoices) ∧
    (∀ inv : Invoice, (deleteFulfilled s d).invoices.count inv =
      if inv.id = d then 0 else s.invoices.count inv) ∧
    (∀ c, s.currentInvoice = some c → c.id = d →
      (deleteFulfilled s d).currentInvoice = none) ∧
    (∀ c, s.currentInvoice = some c → c.id ≠ d →
      (deleteFulfilled s d).currentInvoice = some c) ∧
    (s.currentInvoice = none → (deleteFulfilled s d).currentInvoice = none) := by
  refine ⟨?_, ?_, ?_, ?_, ?_⟩
  · exact List.filter_sublist s.invoices
  · intro inv
    by_cases hid : inv.id = d
    · rw [if_pos hid, List.count_eq_zero]
      simp [deleteFulfilled, List.mem_filter, hid]
    · rw [if_neg hid]
      simp only [deleteFulfilled]
      exact List.count_filter (by simp [hid])
  · intro c hc hcd
    simp [deleteFulfilled, hc, hcd]
  · intro c hc hcd
    simp [deleteFulfilled, hc, hcd]
  · intro hc
    simp [deleteFulfilled, hc]

/-- C9 witness: deleting `inv-1` from the concrete two-record store
removes the matching record and clears `currentInvoice`. -/
theorem delete_removes_exactly_id_witness :
    (deleteFulfilled stateOne "inv-1").invoices.count invoiceOld = 0 ∧
    (deleteFulfilled stateOne "inv-1").currentInvoice = none := by
  obtain ⟨-, hcount, hnone, -, -⟩ := delete_removes_exactly_id stateOne "inv-1"
  have h := hcount invoiceOld
  simp only [invoiceOld, mkInvoice, if_pos] at h
  exact ⟨h, hnone invoiceOld rfl rfl⟩

/-- C10: every rejected case of the five invoice thunks leaves
`invoices`, `currentInvoice` and `totalCount` unchanged, sets `loading`
to false and `error` to a non-null message. -/
theorem rejected_cases_preserve_state (s : InvoiceState) (msg : Option String) :
    ((fetchInvoicesRejected s msg).invoices = s.invoices ∧
      (fetchInvoicesRejected s msg).currentInvoice = s.currentInvoice ∧
      (fetchInvoicesRejected s msg).totalCount = s.totalCount ∧
      (fetchInvoicesRejected s msg).loading = false ∧
      (fetchInvoicesRejected s msg).error ≠ none) ∧
    ((fetchInvoiceByIdRejected s msg).invoices = s.invoices ∧
      (fetchInvoiceByIdRejected s msg).currentInvoice = s.currentInvoice ∧
      (fetchInvoiceByIdRejected s msg).totalCount = s.totalCount ∧
      (fetchInvoiceByIdRejected s msg).loading = false ∧
      (fetchInvoiceByIdRejected s msg).error ≠ none) ∧
    ((createInvoiceRejected s msg).invoices = s.invoices ∧
      (createInvoiceRejected s msg).currentInvoice = s.currentInvoice ∧
      (createInvoiceRejected s msg).totalCount = s.totalCount ∧
      (createInvoiceRejected s msg).loading = false ∧
      (createInvoiceRejected s msg).error ≠ none) ∧
    ((updateInvoiceRejected s msg).invoices = s.invoices ∧
      (updateInvoiceRejected s msg).currentInvoice = s.currentInvoice ∧
      (updateInvoiceRejected s msg).totalCount = s.totalCount ∧
      (updateInvoiceRejected s msg).loading = false ∧
      (updateInvoiceRejected s msg).error ≠ none) ∧
    ((deleteInvoiceRejected s msg).invoices = s.invoices ∧
      (deleteInvoiceRejected s msg).currentInvoice = s.currentInvoice ∧
      (deleteInvoiceRejected s msg).totalCount = s.totalCount ∧
      (deleteInvoiceRejected s msg).loading = false ∧
      (deleteInvoiceRejected s msg).error ≠ none) := by
  refine ⟨⟨rfl, rfl, rfl, rfl, ?_⟩, ⟨rfl, rfl, rfl, rfl, ?_⟩, ⟨rfl, rfl, rfl, rfl, ?_⟩,
    ⟨rfl, rfl, rfl, rfl, ?_⟩, ⟨rfl, rfl, rfl, rfl, ?_⟩⟩ <;>
  simp [fetchInvoicesRejected, fetchInvoiceByIdRejected, createInvoiceRejected,
    updateInvoiceRejected, deleteInvoiceRejected]

/-- C10 witness: the frame conditions evaluated on the initial state,
with and without an error message. -/
theorem rejected_cases_preserve_state_witness :
    (fetchInvoicesRejected initialState (some "boom")).invoices = [] ∧
    (deleteInvoiceRejected initialState none).error ≠ none := by
  have hA := (rejected_cases_preserve_state initialState (some "boom")).1
  have hB := (rejected_cases_preserve_state initialState none).2.2.2.2
  exact ⟨hA.1, hB.2.2.2.2⟩

end EasyScan
